import Mathlib

/-!
Shallow embedding of `src/docker-images/fastapi/main.py`.

External collaborators (the `json` module's parser and the `psycopg2`
connect call) are modelled as oracle fields of a `World` structure; the
observable side effects of a handler (log lines, the connect attempt, the
cursor executions, the transaction commit, closing the connection) are
recorded in an event trace.  Python exceptions are modelled with `Except`
over an explicit error type, and each `try/except` block of the source
becomes a `Body` function returning `Except` plus a wrapper that matches
the `except` clauses.
-/

namespace Stage3v3

/-- A JSON value, as returned by Python's `json.loads`. -/
inductive Json where
  | null
  | bool (b : Bool)
  | num (n : Int)
  | str (s : String)
  | arr (elems : List Json)
  | obj (fields : List (String × Json))

/-- The Python type name of a JSON value, used in Python error messages
such as `'int' object has no attribute 'keys'`. -/
def pyTypeName : Json → String
  | .null => "NoneType"
  | .bool _ => "bool"
  | .num _ => "int"
  | .str _ => "str"
  | .arr _ => "list"
  | .obj _ => "dict"

/-- A single-quote character, for Python `repr`-style error messages. -/
def sq : String := String.singleton (Char.ofNat 39)

/-- The Python exceptions that the code in `main.py` can raise. -/
inductive PyErr where
  | jsonDecodeError (msg : String)
  | keyError (key : String)
  | attributeError (msg : String)
  | connectError (msg : String)
  | queryError (msg : String)
  | httpException (statusCode : Nat) (detail : String)
deriving DecidableEq, Repr

/-- Python `str(e)` of an exception: a `KeyError` prints as the quoted
key, a starlette `HTTPException` prints as `{status_code}: {detail}`,
the rest print their message. -/
def pyErrStr : PyErr → String
  | .jsonDecodeError m => m
  | .keyError k => sq ++ k ++ sq
  | .attributeError m => m
  | .connectError m => m
  | .queryError m => m
  | .httpException c d => toString c ++ ": " ++ d

/-- The keyword arguments of the `psycopg2.connect(...)` call
(lines 34-40 of `main.py`); each value is whatever JSON value the parsed
secret holds under the corresponding key. -/
structure ConnectParams where
  host : Json
  database : Json
  user : Json
  password : Json
  port : Json

/-- Observable effects of the handlers: log lines, calls to the secret
store, the database connect attempt, cursor executions of the three SQL
statements, a successful transaction commit, and closing the connection. -/
inductive Event where
  | logInfo (msg : String)
  | logError (msg : String)
  /-- A `get_secret_value` call on the AWS Secrets Manager client.
  `main.py` imports `boto3` but never constructs a client, so no code
  path emits this event. -/
  | secretsGetSecretValue (secretId : String)
  | connectAttempt (p : ConnectParams)
  | execCreateTable
  | execInsert
  | execSelect
  /-- The transaction was committed (`conn.commit()` returned). -/
  | commit
  /-- The connection was closed (`conn.close()`). -/
  | close

/-- Whether an event is the closing of the connection. -/
def Event.isClose : Event → Bool
  | .close => true
  | _ => false

/-- Whether an event is a successful transaction commit. -/
def Event.isCommit : Event → Bool
  | .commit => true
  | _ => false

/-- Whether an event is a `psycopg2.connect` attempt. -/
def Event.isConnectAttempt : Event → Bool
  | .connectAttempt _ => true
  | _ => false

/-- Whether an event is a secret-store `get_secret_value` call. -/
def Event.isSecretsCall : Event → Bool
  | .secretsGetSecretValue _ => true
  | _ => false

/-- How many events of a trace satisfy a predicate. -/
def countEv (p : Event → Bool) (evs : List Event) : Nat :=
  (evs.filter p).length

/-- Oracles for the external collaborators: `json.loads` (an `error`
models a raised `json.JSONDecodeError` with its message) and
`psycopg2.connect` (an `error` models a raised connection exception). -/
structure World where
  jsonLoads : String → Except String Json
  connectOutcome : ConnectParams → Except String Unit

/-- Python `value[key]`: on a dict, looks the key up (raising `KeyError`
when absent); on any non-dict JSON value the subscript raises. -/
def subscript (v : Json) (key : String) : Except PyErr Json :=
  match v with
  | .obj fields =>
    match fields.lookup key with
    | some x => .ok x
    | none => .error (.keyError key)
  | _ => .error (.attributeError (sq ++ pyTypeName v ++ sq ++ " object is not subscriptable"))

/-- Python `dict.get(key, default)`; only ever reached on a dict in
`main.py` (the earlier subscripts fail first otherwise). -/
def dictGet (v : Json) (key : String) (dflt : Json) : Except PyErr Json :=
  match v with
  | .obj fields =>
    match fields.lookup key with
    | some x => .ok x
    | none => .ok dflt
  | _ => .error (.attributeError (sq ++ pyTypeName v ++ sq ++ " object has no attribute " ++ sq ++ "get" ++ sq))

/-- Python `list(value.keys())` (line 31); raises `AttributeError` when
the parsed secret is not a dict. -/
def keysOf (v : Json) : Except PyErr (List String) :=
  match v with
  | .obj fields => .ok (fields.map Prod.fst)
  | _ => .error (.attributeError (sq ++ pyTypeName v ++ sq ++ " object has no attribute " ++ sq ++ "keys" ++ sq))

/-- Python `repr` of a list of strings, as interpolated into the
`Parsed secret keys: ...` log line. -/
def pyListRepr (xs : List String) : String :=
  "[" ++ String.intercalate ", " (xs.map (fun s => sq ++ s ++ sq)) ++ "]"

/-- Evaluation of the five keyword arguments of `psycopg2.connect`
(lines 35-39), in Python's left-to-right order: `secret['host']`,
`secret['dbname']`, `secret['username']`, `secret['password']`,
`secret.get('port', 5432)`.  The first absent required key raises
`KeyError` naming it. -/
def extractConnectParams (secret : Json) : Except PyErr ConnectParams :=
  match subscript secret "host" with
  | .error e => .error e
  | .ok host =>
  match subscript secret "dbname" with
  | .error e => .error e
  | .ok database =>
  match subscript secret "username" with
  | .error e => .error e
  | .ok user =>
  match subscript secret "password" with
  | .error e => .error e
  | .ok password =>
  match dictGet secret "port" (Json.num 5432) with
  | .error e => .error e
  | .ok port => .ok ⟨host, database, user, password, port⟩

/-- The body of the `try` block of `get_database_connection`
(lines 21-42): empty configuration returns `None` directly; otherwise the
value is parsed as JSON, its keys are logged, the five connect arguments
are extracted and `psycopg2.connect` is attempted.  An `error` result is
an exception propagating to the `except` clauses. -/
def gdcBody (w : World) (databaseUrlSecret : String) :
    Except PyErr (Option ConnectParams) × List Event :=
  if databaseUrlSecret = "" then
    (.ok none, [.logError "DATABASE_URL environment variable is empty or not set"])
  else
    let evLen : Event := .logInfo ("DATABASE_URL_SECRET length: " ++ toString databaseUrlSecret.length)
    match w.jsonLoads databaseUrlSecret with
    | .error m => (.error (.jsonDecodeError m), [evLen])
    | .ok secret =>
      match keysOf secret with
      | .error e => (.error e, [evLen])
      | .ok keys =>
        let evKeys : Event := .logInfo ("Parsed secret keys: " ++ pyListRepr keys)
        match extractConnectParams secret with
        | .error e => (.error e, [evLen, evKeys])
        | .ok p =>
          match w.connectOutcome p with
          | .error m => (.error (.connectError m), [evLen, evKeys, .connectAttempt p])
          | .ok _ =>
            (.ok (some p), [evLen, evKeys, .connectAttempt p, .logInfo "Database connection successful"])

/-- The log line emitted by the `except` clause that catches a given
exception (lines 43-51): `JSONDecodeError`, `KeyError`, then the
catch-all `except Exception`. -/
def gdcExceptLog : PyErr → Event
  | .jsonDecodeError m => .logError ("Failed to parse DATABASE_URL as JSON: " ++ m)
  | .keyError k => .logError ("Missing key in database secret: " ++ sq ++ k ++ sq)
  | e => .logError ("Database connection failed: " ++ pyErrStr e)

/-- `get_database_connection` (lines 19-51): the `try` body wrapped by
the three `except` clauses, each of which logs and returns `None`.
`some p` is a live connection obtained with connect arguments `p`. -/
def get_database_connection (w : World) (databaseUrlSecret : String) :
    Option ConnectParams × List Event :=
  match gdcBody w databaseUrlSecret with
  | (.ok r, evs) => (r, evs)
  | (.error e, evs) => (none, evs ++ [gdcExceptLog e])

/-- `check_database_connection` (lines 124-133): obtain a connection,
close it immediately when one was opened, and return whether one was
opened; the bare `except` never fires because `get_database_connection`
is total. -/
def check_database_connection (w : World) (databaseUrlSecret : String) :
    Bool × List Event :=
  match get_database_connection w databaseUrlSecret with
  | (some _, evs) => (true, evs ++ [.close])
  | (none, evs) => (false, evs)

/-- The response body of `GET /api/status` (lines 74-79). -/
structure StatusResponse where
  status : String
  environment : String
  service : String
  database_connected : Bool
deriving DecidableEq, Repr

/-- `api_status` (lines 71-79). -/
def api_status (w : World) (environment databaseUrlSecret : String) :
    StatusResponse × List Event :=
  match check_database_connection w databaseUrlSecret with
  | (b, evs) => (⟨"operational", environment, "fastapi-backend", b⟩, evs)

/-! ## The database and the three SQL statements of `database_test`

The PostgreSQL server is an external collaborator; the meaning of the
three literal SQL statements of lines 91-107 is modelled by PostgreSQL
semantics on an explicit database state. -/

/-- The canonical test message inserted by line 102. -/
def canonicalMessage : String := "Hello from Stage3v3 FastAPI!"

/-- A row of the `test_data` table: `id SERIAL PRIMARY KEY`,
`message TEXT`, `created_at TIMESTAMP DEFAULT CURRENT_TIMESTAMP`. -/
structure Row where
  id : Nat
  message : String
  created_at : Nat
deriving DecidableEq, Repr

/-- The `test_data` table together with the state of the `SERIAL`
sequence feeding its `id` column. -/
structure TestDataTable where
  nextId : Nat
  rows : List Row
deriving DecidableEq, Repr

/-- The durable database state: `test_data` is `none` while the table
has not yet been created. -/
structure Database where
  test_data : Option TestDataTable
deriving DecidableEq, Repr

/-- `CREATE TABLE IF NOT EXISTS test_data (id SERIAL PRIMARY KEY,
message TEXT, created_at TIMESTAMP DEFAULT CURRENT_TIMESTAMP)`
(lines 91-97): a no-op when the table exists, otherwise creates it empty
with the serial sequence at 1.  The only constraint the statement
declares is the primary key on `id`; `message` carries no UNIQUE
constraint. -/
def createTableIfNotExists (db : Database) : Database :=
  match db.test_data with
  | some _ => db
  | none => ⟨some ⟨1, []⟩⟩

/-- `INSERT INTO test_data (message) VALUES ('Hello from Stage3v3
FastAPI!') ON CONFLICT DO NOTHING` (lines 100-104): `id` is drawn fresh
from the serial sequence and `created_at` defaults to the current
timestamp.  With no conflict target, `ON CONFLICT DO NOTHING` suppresses
the insert only on a constraint violation; the sole constraint is the
primary key on the freshly drawn `id`, which never collides, so the row
is always inserted.  (The handler always creates the table first, so the
missing-table branch is unreachable there.) -/
def insertTestMessage (db : Database) (now : Nat) : Database :=
  match db.test_data with
  | none => db
  | some t => ⟨some ⟨t.nextId + 1, t.rows ++ [⟨t.nextId, canonicalMessage, now⟩]⟩⟩

/-- Insert a row into a list sorted by `created_at` descending, keeping
it sorted (rows are kept in descending timestamp order; the relative
order of equal timestamps is unspecified in `ORDER BY`, so any
tie-break is a faithful model). -/
def insertRowDesc (r : Row) : List Row → List Row
  | [] => [r]
  | x :: xs => if x.created_at < r.created_at then r :: x :: xs else x :: insertRowDesc r xs

/-- Sort rows by `created_at` descending. -/
def sortRowsDesc : List Row → List Row
  | [] => []
  | x :: xs => insertRowDesc x (sortRowsDesc xs)

/-- `SELECT * FROM test_data ORDER BY created_at DESC LIMIT 5`
(line 107): the rows sorted by `created_at` descending, first five. -/
def selectRecent (db : Database) : List Row :=
  match db.test_data with
  | none => []
  | some t => (sortRowsDesc t.rows).take 5

/-- Fault injection for the statements run on the open connection:
`some msg` makes the corresponding `cursor.execute` (or `conn.commit`)
raise a database exception with message `msg`. -/
structure FaultSpec where
  createFault : Option String
  insertFault : Option String
  selectFault : Option String
  commitFault : Option String
deriving DecidableEq, Repr

/-- The 200 response body of `GET /api/db-test` (lines 113-118). -/
structure DbTestResponse where
  status : String
  environment : String
  database_connected : Bool
  test_data : List Row
deriving DecidableEq, Repr

/-- A raised `fastapi.HTTPException`, as serialized by FastAPI into a
`{detail: ...}` error response. -/
structure HttpError where
  status_code : Nat
  detail : String
deriving DecidableEq, Repr

/-- The body of the `try` block of `database_test` (lines 84-118).
A `none` connection makes line 87 raise `HTTPException(500, "Database
connection failed")` — an exception like any other, to be caught by the
handler's own `except Exception` clause.  Each query step may be made to
raise by the fault spec; an exception aborts the remaining steps, and
since `conn.commit()` (line 110) was then never reached, the
transaction's changes are discarded, so the durable database stays the
input one.  `conn.close()` (line 111) sits on the straight-line path
after the commit and is reached only when nothing raised. -/
def dbTestBody (w : World) (f : FaultSpec) (environment databaseUrlSecret : String)
    (db : Database) (now : Nat) :
    Except PyErr DbTestResponse × Database × List Event :=
  match get_database_connection w databaseUrlSecret with
  | (none, evs0) =>
    (.error (.httpException 500 "Database connection failed"), db, evs0)
  | (some _, evs0) =>
    let evsC := evs0 ++ [.execCreateTable]
    match f.createFault with
    | some m => (.error (.queryError m), db, evsC)
    | none =>
      let db1 := createTableIfNotExists db
      let evsI := evsC ++ [.execInsert]
      match f.insertFault with
      | some m => (.error (.queryError m), db, evsI)
      | none =>
        let db2 := insertTestMessage db1 now
        let evsS := evsI ++ [.execSelect]
        match f.selectFault with
        | some m => (.error (.queryError m), db, evsS)
        | none =>
          let results := selectRecent db2
          match f.commitFault with
          | some m => (.error (.queryError m), db, evsS)
          | none =>
            (.ok ⟨"success", environment, true, results⟩, db2,
             evsS ++ [.commit, .close])

/-- `database_test` (lines 81-122): the `try` body wrapped by `except
Exception as e`, which logs `Database test failed: {e}` and raises
`HTTPException(500, f"Database test failed: {str(e)}")`.  Note that the
`HTTPException` raised at line 87 is itself caught here and re-wrapped,
`str` of a starlette `HTTPException` being `"{status_code}: {detail}"`. -/
def database_test (w : World) (f : FaultSpec) (environment databaseUrlSecret : String)
    (db : Database) (now : Nat) :
    Except HttpError DbTestResponse × Database × List Event :=
  match dbTestBody w f environment databaseUrlSecret db now with
  | (.ok r, db2, evs) => (.ok r, db2, evs)
  | (.error e, db2, evs) =>
    (.error ⟨500, "Database test failed: " ++ pyErrStr e⟩, db2,
     evs ++ [.logError ("Database test failed: " ++ pyErrStr e)])

/-- How many rows of the database carry a given message. -/
def messageCount (db : Database) (msg : String) : Nat :=
  match db.test_data with
  | none => 0
  | some t => (t.rows.filter (fun r => r.message = msg)).length

/-- The required keys of the credential record, in the order the connect
arguments read them (lines 35-38). -/
def requiredKeys : List String := ["host", "dbname", "username", "password"]

/-- Events emitted inside `get_database_connection`: log lines and the
connect attempt.  The resolver never closes, commits, executes a query,
or calls the secret store. -/
def Event.isResolverEvent : Event → Bool
  | .logInfo _ => true
  | .logError _ => true
  | .connectAttempt _ => true
  | _ => false

/-- Events emitted by the query phase of `database_test` on the open
connection: the cursor executions, the commit, the close. -/
def Event.isDbPhaseEvent : Event → Bool
  | .execCreateTable => true
  | .execInsert => true
  | .execSelect => true
  | .commit => true
  | .close => true
  | _ => false

/-! ## Concrete worlds and runs used as witnesses and counterexamples -/

/-- A world whose configuration value parses to a complete credential
object (no `port` key) and whose database accepts the connection. -/
def wOk : World :=
  ⟨fun _ => .ok (.obj [("host", .str "h"), ("dbname", .str "d"),
                       ("username", .str "u"), ("password", .str "p")]),
   fun _ => .ok ()⟩

/-- A world whose configuration value is not valid JSON: `json.loads`
raises with the usual CPython message. -/
def wParseErr : World :=
  ⟨fun _ => .error "Expecting value: line 1 column 1 (char 0)", fun _ => .ok ()⟩

/-- A world whose configuration value parses to a credential object
missing the `dbname` key. -/
def wMissingDbname : World :=
  ⟨fun _ => .ok (.obj [("host", .str "h"), ("username", .str "u"),
                       ("password", .str "p")]),
   fun _ => .ok ()⟩

/-- No injected query faults. -/
def noFaults : FaultSpec := ⟨none, none, none, none⟩

/-- A fault spec under which table creation succeeds but the insert
raises. -/
def fInsert : FaultSpec := ⟨none, some "injected insert fault", none, none⟩

/-- The durable database after a first `GET /api/db-test` call against
an initially empty database (timestamp 1). -/
def dbAfterFirstCall : Database :=
  (database_test wOk noFaults "development" "cfg" ⟨none⟩ 1).2.1

/-- The durable database after a second `GET /api/db-test` call
(timestamp 2). -/
def dbAfterSecondCall : Database :=
  (database_test wOk noFaults "development" "cfg" dbAfterFirstCall 2).2.1

/-! ## Helper lemmas -/

theorem countEv_append (p : Event → Bool) (a b : List Event) :
    countEv p (a ++ b) = countEv p a + countEv p b := by
  simp [countEv, List.filter_append]

theorem countEv_eq_zero {p : Event → Bool} {evs : List Event}
    (h : ∀ e ∈ evs, p e = false) : countEv p evs = 0 := by
  simp only [countEv, List.length_eq_zero, List.filter_eq_nil_iff]
  intro e he
  simp [h e he]

theorem resolver_not_close {e : Event} (h : e.isResolverEvent = true) :
    e.isClose = false := by
  cases e <;> simp_all [Event.isResolverEvent, Event.isClose]

theorem resolver_not_commit {e : Event} (h : e.isResolverEvent = true) :
    e.isCommit = false := by
  cases e <;> simp_all [Event.isResolverEvent, Event.isCommit]

theorem resolver_not_secrets {e : Event} (h : e.isResolverEvent = true) :
    e.isSecretsCall = false := by
  cases e <;> simp_all [Event.isResolverEvent, Event.isSecretsCall]

theorem gdcBody_events (w : World) (s : String) :
    ∀ e ∈ (gdcBody w s).2, e.isResolverEvent = true := by
  by_cases hs : s = ""
  · simp [gdcBody, hs, Event.isResolverEvent]
  · rcases hj : w.jsonLoads s with m | secret
    · simp [gdcBody, hs, hj, Event.isResolverEvent]
    · rcases hk : keysOf secret with e0 | keys
      · simp [gdcBody, hs, hj, hk, Event.isResolverEvent]
      · rcases hx : extractConnectParams secret with e0 | p
        · simp [gdcBody, hs, hj, hk, hx, Event.isResolverEvent]
        · rcases hc : w.connectOutcome p with m | u
          · simp [gdcBody, hs, hj, hk, hx, hc, Event.isResolverEvent]
          · simp [gdcBody, hs, hj, hk, hx, hc, Event.isResolverEvent]

theorem gdcExceptLog_resolver (e : PyErr) :
    (gdcExceptLog e).isResolverEvent = true := by
  cases e <;> rfl

theorem gdc_events (w : World) (s : String) :
    ∀ e ∈ (get_database_connection w s).2, e.isResolverEvent = true := by
  have hbody := gdcBody_events w s
  unfold get_database_connection
  rcases hb : gdcBody w s with ⟨er | r, evs⟩ <;> rw [hb] at hbody <;> dsimp only
  · intro e he
    simp only [List.mem_append, List.mem_singleton] at he
    rcases he with he | he
    · exact hbody e he
    · subst he
      exact gdcExceptLog_resolver er
  · simpa using hbody

theorem lookup_subscript {fields : List (String × Json)} {k : String}
    (h : (fields.lookup k).isSome = true) :
    ∃ v, fields.lookup k = some v ∧ subscript (Json.obj fields) k = .ok v := by
  obtain ⟨v, hv⟩ := Option.isSome_iff_exists.mp h
  exact ⟨v, hv, by simp [subscript, hv]⟩

theorem extract_missing {fields : List (String × Json)} {k : String}
    (hk : k ∈ requiredKeys) (hmiss : fields.lookup k = none)
    (hpres : ∀ k2 ∈ requiredKeys, k2 ≠ k → (fields.lookup k2).isSome = true) :
    extractConnectParams (Json.obj fields) = .error (.keyError k) := by
  simp only [requiredKeys, List.mem_cons, List.not_mem_nil, or_false] at hk
  rcases hk with rfl | rfl | rfl | rfl
  · simp [extractConnectParams, subscript, hmiss]
  · obtain ⟨vh, hlh, _⟩ := lookup_subscript
      (hpres "host" (by simp [requiredKeys]) (by decide))
    simp [extractConnectParams, subscript, hlh, hmiss]
  · obtain ⟨vh, hlh, _⟩ := lookup_subscript
      (hpres "host" (by simp [requiredKeys]) (by decide))
    obtain ⟨vd, hld, _⟩ := lookup_subscript
      (hpres "dbname" (by simp [requiredKeys]) (by decide))
    simp [extractConnectParams, subscript, hlh, hld, hmiss]
  · obtain ⟨vh, hlh, _⟩ := lookup_subscript
      (hpres "host" (by simp [requiredKeys]) (by decide))
    obtain ⟨vd, hld, _⟩ := lookup_subscript
      (hpres "dbname" (by simp [requiredKeys]) (by decide))
    obtain ⟨vu, hlu, _⟩ := lookup_subscript
      (hpres "username" (by simp [requiredKeys]) (by decide))
    simp [extractConnectParams, subscript, hlh, hld, hlu, hmiss]

theorem extract_port_default {fields : List (String × Json)}
    (hall : ∀ k ∈ requiredKeys, (fields.lookup k).isSome = true)
    (hport : fields.lookup "port" = none) :
    ∃ p, extractConnectParams (Json.obj fields) = .ok p ∧ p.port = Json.num 5432 := by
  obtain ⟨vh, hlh, _⟩ := lookup_subscript (hall "host" (by simp [requiredKeys]))
  obtain ⟨vd, hld, _⟩ := lookup_subscript (hall "dbname" (by simp [requiredKeys]))
  obtain ⟨vu, hlu, _⟩ := lookup_subscript (hall "username" (by simp [requiredKeys]))
  obtain ⟨vp, hlp, _⟩ := lookup_subscript (hall "password" (by simp [requiredKeys]))
  refine ⟨⟨vh, vd, vu, vp, Json.num 5432⟩, ?_, rfl⟩
  simp [extractConnectParams, subscript, hlh, hld, hlu, hlp, dictGet, hport]

/-! ## Claim theorems -/

/-- C5: for every configuration string that is not valid JSON
(`json.loads` raises), credential resolution returns no connection, the
`psycopg2.connect` operation is never invoked, and (whenever the string
is non-empty, so that parsing is even reached) the parse failure is
logged.  The empty string is rejected even earlier, at the
configured-at-all check of line 23, likewise without any connect
attempt. -/
theorem parse_failure_skips_connect (w : World) (s m : String)
    (h : w.jsonLoads s = .error m) :
    (get_database_connection w s).1 = none ∧
    countEv Event.isConnectAttempt (get_database_connection w s).2 = 0 ∧
    (s ≠ "" → Event.logError ("Failed to parse DATABASE_URL as JSON: " ++ m)
      ∈ (get_database_connection w s).2) := by
  by_cases hs : s = ""
  · subst hs
    exact ⟨rfl, rfl, fun h' => absurd rfl h'⟩
  · have hb : gdcBody w s = (.error (.jsonDecodeError m),
        [.logInfo ("DATABASE_URL_SECRET length: " ++ toString s.length)]) := by
      simp [gdcBody, hs, h]
    refine ⟨?_, ?_, fun _ => ?_⟩ <;>
      simp [get_database_connection, hb, gdcExceptLog, countEv, Event.isConnectAttempt]

theorem parse_failure_skips_connect_witness :
    wParseErr.jsonLoads "not json" = .error "Expecting value: line 1 column 1 (char 0)" ∧
    (get_database_connection wParseErr "not json").1 = none ∧
    countEv Event.isConnectAttempt (get_database_connection wParseErr "not json").2 = 0 :=
  ⟨rfl,
   (parse_failure_skips_connect wParseErr "not json"
      "Expecting value: line 1 column 1 (char 0)" rfl).1,
   (parse_failure_skips_connect wParseErr "not json"
      "Expecting value: line 1 column 1 (char 0)" rfl).2.1⟩

/-- C4 counterexample: with the configuration value set to an identifier
naming a secret (not raw JSON), `get_database_connection` performs no
`get_secret_value` call on the secret store at all — it just tries to
parse the identifier as JSON, fails, and returns no connection.  This
contradicts the claim that the resolver queries the remote secret store
with the identifier. -/
theorem secret_identifier_not_queried :
    countEv Event.isSecretsCall
      (get_database_connection wParseErr "my-db-credentials-secret-id").2 = 0 ∧
    (get_database_connection wParseErr "my-db-credentials-secret-id").1 = none :=
  ⟨rfl, rfl⟩

/-- C4 amended: credential resolution supports only the direct-inject
mode — the configuration value is parsed as JSON directly (line 30) and
the remote secret store's `get_secret_value` operation is never invoked
on any code path (`boto3` is imported at line 4 but never used). -/
theorem resolver_never_calls_secret_store (w : World) (s : String) :
    countEv Event.isSecretsCall (get_database_connection w s).2 = 0 :=
  countEv_eq_zero (fun e he => resolver_not_secrets (gdc_events w s e he))

/-- C9: `get_database_connection` is total over every configuration
string and every behaviour of the JSON parser and the database: it
either returns a live connection (opened by a successful
`psycopg2.connect`) or `None`, and every exception its `try` body raises
is caught by its `except` clauses, logged, and turned into `None` —
nothing propagates to the caller. -/
theorem gdc_total (w : World) (s : String) :
    ((get_database_connection w s).1 = none ∨
     ∃ p, (get_database_connection w s).1 = some p ∧ w.connectOutcome p = .ok ()) ∧
    (∀ e evs, gdcBody w s = (.error e, evs) →
      get_database_connection w s = (none, evs ++ [gdcExceptLog e])) := by
  constructor
  · by_cases hs : s = ""
    · left
      simp [get_database_connection, gdcBody, hs]
    · rcases hj : w.jsonLoads s with m | secret
      · left
        simp [get_database_connection, gdcBody, hs, hj]
      · rcases hk : keysOf secret with e0 | keys
        · left
          simp [get_database_connection, gdcBody, hs, hj, hk]
        · rcases hx : extractConnectParams secret with e0 | p
          · left
            simp [get_database_connection, gdcBody, hs, hj, hk, hx]
          · rcases hc : w.connectOutcome p with m | u
            · left
              simp [get_database_connection, gdcBody, hs, hj, hk, hx, hc]
            · right
              exact ⟨p, by simp [get_database_connection, gdcBody, hs, hj, hk, hx, hc],
                     by rw [hc]⟩
  · intro e evs hb
    simp [get_database_connection, hb]

theorem gdc_total_witness :
    get_database_connection wParseErr "x" =
      (none, [.logInfo "DATABASE_URL_SECRET length: 1",
              .logError "Failed to parse DATABASE_URL as JSON: Expecting value: line 1 column 1 (char 0)"]) :=
  (gdc_total wParseErr "x").2
    (.jsonDecodeError "Expecting value: line 1 column 1 (char 0)")
    [.logInfo "DATABASE_URL_SECRET length: 1"] rfl

/-- C6: for a configuration value parsing to a JSON object with one of
the required keys `host`/`dbname`/`username`/`password` absent (the
others present), resolution fails — no connection, a `Missing key in
database secret: '<key>'` log naming exactly that key, and no connect
attempt (so no silent default is substituted); and when all required
keys are present but `port` is absent, the connect is attempted with the
default port 5432. -/
theorem missing_required_key_contract (w : World) (s : String)
    (fields : List (String × Json)) (hs : s ≠ "")
    (hj : w.jsonLoads s = .ok (.obj fields)) :
    (∀ k ∈ requiredKeys, fields.lookup k = none →
      (∀ k2 ∈ requiredKeys, k2 ≠ k → (fields.lookup k2).isSome = true) →
      (get_database_connection w s).1 = none ∧
      Event.logError ("Missing key in database secret: " ++ sq ++ k ++ sq)
        ∈ (get_database_connection w s).2 ∧
      countEv Event.isConnectAttempt (get_database_connection w s).2 = 0) ∧
    ((∀ k ∈ requiredKeys, (fields.lookup k).isSome = true) →
      fields.lookup "port" = none →
      ∃ p, Event.connectAttempt p ∈ (get_database_connection w s).2 ∧
        p.port = Json.num 5432) := by
  constructor
  · intro k hk hmiss hpres
    have hx := extract_missing hk hmiss hpres
    have hb : gdcBody w s = (.error (.keyError k),
        [.logInfo ("DATABASE_URL_SECRET length: " ++ toString s.length),
         .logInfo ("Parsed secret keys: " ++ pyListRepr (fields.map Prod.fst))]) := by
      simp [gdcBody, hs, hj, keysOf, hx]
    refine ⟨?_, ?_, ?_⟩ <;>
      simp [get_database_connection, hb, gdcExceptLog, countEv, Event.isConnectAttempt]
  · intro hall hport
    obtain ⟨p, hx, hp⟩ := extract_port_default hall hport
    refine ⟨p, ?_, hp⟩
    rcases hc : w.connectOutcome p with m | u
    · have hb : gdcBody w s = (.error (.connectError m),
          [.logInfo ("DATABASE_URL_SECRET length: " ++ toString s.length),
           .logInfo ("Parsed secret keys: " ++ pyListRepr (fields.map Prod.fst)),
           .connectAttempt p]) := by
        simp [gdcBody, hs, hj, keysOf, hx, hc]
      simp [get_database_connection, hb, gdcExceptLog]
    · have hb : gdcBody w s = (.ok (some p),
          [.logInfo ("DATABASE_URL_SECRET length: " ++ toString s.length),
           .logInfo ("Parsed secret keys: " ++ pyListRepr (fields.map Prod.fst)),
           .connectAttempt p, .logInfo "Database connection successful"]) := by
        simp [gdcBody, hs, hj, keysOf, hx, hc]
      simp [get_database_connection, hb]

theorem dbTestBody_cases (w : World) (f : FaultSpec) (env s : String)
    (db : Database) (now : Nat) :
    (∃ e evs, dbTestBody w f env s db now = (.error e, db, evs) ∧
       countEv Event.isCommit evs = 0 ∧ countEv Event.isClose evs = 0) ∨
    (∃ evs, dbTestBody w f env s db now =
       (.ok ⟨"success", env, true,
          selectRecent (insertTestMessage (createTableIfNotExists db) now)⟩,
        insertTestMessage (createTableIfNotExists db) now, evs) ∧
       countEv Event.isCommit evs = 1 ∧ countEv Event.isClose evs = 1) := by
  have hcm : countEv Event.isCommit (get_database_connection w s).2 = 0 :=
    countEv_eq_zero (fun e he => resolver_not_commit (gdc_events w s e he))
  have hcl : countEv Event.isClose (get_database_connection w s).2 = 0 :=
    countEv_eq_zero (fun e he => resolver_not_close (gdc_events w s e he))
  rcases hb : get_database_connection w s with ⟨o, evs0⟩
  rw [hb] at hcm hcl
  rcases o with _ | p
  · left
    exact ⟨.httpException 500 "Database connection failed", evs0,
      by simp [dbTestBody, hb], hcm, hcl⟩
  · rcases hcf : f.createFault with _ | m1
    · rcases hif : f.insertFault with _ | m2
      · rcases hsf : f.selectFault with _ | m3
        · rcases hmf : f.commitFault with _ | m4
          · right
            refine ⟨evs0 ++ [.execCreateTable] ++ [.execInsert] ++ [.execSelect]
                ++ [.commit, .close], ?_, ?_, ?_⟩
            · simp [dbTestBody, hb, hcf, hif, hsf, hmf]
            · simp only [countEv_append, hcm]
              decide
            · simp only [countEv_append, hcl]
              decide
          · left
            refine ⟨.queryError m4,
                evs0 ++ [.execCreateTable] ++ [.execInsert] ++ [.execSelect], ?_, ?_, ?_⟩
            · simp [dbTestBody, hb, hcf, hif, hsf, hmf]
            · simp only [countEv_append, hcm]
              decide
            · simp only [countEv_append, hcl]
              decide
        · left
          refine ⟨.queryError m3,
              evs0 ++ [.execCreateTable] ++ [.execInsert] ++ [.execSelect], ?_, ?_, ?_⟩
          · simp [dbTestBody, hb, hcf, hif, hsf]
          · simp only [countEv_append, hcm]
            decide
          · simp only [countEv_append, hcl]
            decide
      · left
        refine ⟨.queryError m2, evs0 ++ [.execCreateTable] ++ [.execInsert], ?_, ?_, ?_⟩
        · simp [dbTestBody, hb, hcf, hif]
        · simp only [countEv_append, hcm]
          decide
        · simp only [countEv_append, hcl]
          decide
    · left
      refine ⟨.queryError m1, evs0 ++ [.execCreateTable], ?_, ?_, ?_⟩
      · simp [dbTestBody, hb, hcf]
      · simp only [countEv_append, hcm]
        decide
      · simp only [countEv_append, hcl]
        decide

theorem missing_required_key_contract_witness :
    (get_database_connection wMissingDbname "cfg").1 = none ∧
    Event.logError ("Missing key in database secret: " ++ sq ++ "dbname" ++ sq)
      ∈ (get_database_connection wMissingDbname "cfg").2 ∧
    countEv Event.isConnectAttempt (get_database_connection wMissingDbname "cfg").2 = 0 :=
  (missing_required_key_contract wMissingDbname "cfg"
      [("host", .str "h"), ("username", .str "u"), ("password", .str "p")]
      (by decide) rfl).1 "dbname" (by decide) rfl (by decide)

/-- C7: `GET /api/status` never returns a 500-class response — it is a
total function into a success body (the bare `except` of
`check_database_connection` swallows anything): its status is always
`operational`, `database_connected` is exactly whether credential
resolution plus connect succeeded, and on success the probe closes the
connection immediately (exactly one close event), while on failure no
close happens because no connection exists. -/
theorem api_status_never_500 (w : World) (env s : String) :
    (api_status w env s).1.status = "operational" ∧
    (api_status w env s).1.database_connected = (get_database_connection w s).1.isSome ∧
    countEv Event.isClose (api_status w env s).2 =
      (if (get_database_connection w s).1.isSome then 1 else 0) := by
  have hcl : countEv Event.isClose (get_database_connection w s).2 = 0 :=
    countEv_eq_zero (fun e he => resolver_not_close (gdc_events w s e he))
  unfold api_status check_database_connection
  rcases hb : get_database_connection w s with ⟨o, evs0⟩
  rw [hb] at hcl
  rcases o with _ | p <;> dsimp only
  · exact ⟨rfl, rfl, hcl⟩
  · refine ⟨rfl, rfl, ?_⟩
    simp only [countEv_append, hcl]
    simp [countEv, Event.isClose]

/-- C8: on any exception during steps 1-5 of `database_test` (the
handler's result is an error), the transaction is never committed (no
commit event; the durable database is the input one), and the handler
responds 500 with detail `Database test failed: <error text>`, the same
text it logs. -/
theorem db_test_error_contract (w : World) (f : FaultSpec) (env s : String)
    (db : Database) (now : Nat) (err : HttpError) (db2 : Database) (evs : List Event)
    (h : database_test w f env s db now = (.error err, db2, evs)) :
    err.status_code = 500 ∧ db2 = db ∧ countEv Event.isCommit evs = 0 ∧
    ∃ t, err.detail = "Database test failed: " ++ t ∧
      Event.logError ("Database test failed: " ++ t) ∈ evs := by
  rcases dbTestBody_cases w f env s db now with ⟨e, evs0, hb, hcm, _⟩ | ⟨evs0, hb, _, _⟩
  · unfold database_test at h
    rw [hb] at h
    dsimp only at h
    simp only [Prod.mk.injEq, Except.error.injEq] at h
    obtain ⟨herr, hdb2, hevs⟩ := h
    subst herr
    subst hdb2
    subst hevs
    refine ⟨rfl, rfl, ?_, pyErrStr e, rfl, ?_⟩
    · simp only [countEv_append, hcm]
      simp [countEv, Event.isCommit]
    · simp
  · unfold database_test at h
    rw [hb] at h
    dsimp only at h
    simp at h

theorem db_test_error_contract_witness :
    (⟨500, "Database test failed: 500: Database connection failed"⟩ : HttpError).status_code = 500 ∧
    (⟨none⟩ : Database) = (⟨none⟩ : Database) ∧
    countEv Event.isCommit
      [Event.logError "DATABASE_URL environment variable is empty or not set",
       Event.logError "Database test failed: 500: Database connection failed"] = 0 ∧
    ∃ t, (⟨500, "Database test failed: 500: Database connection failed"⟩ : HttpError).detail
        = "Database test failed: " ++ t ∧
      Event.logError ("Database test failed: " ++ t) ∈
        [Event.logError "DATABASE_URL environment variable is empty or not set",
         Event.logError "Database test failed: 500: Database connection failed"] :=
  db_test_error_contract wOk noFaults "development" "" ⟨none⟩ 0
    ⟨500, "Database test failed: 500: Database connection failed"⟩ ⟨none⟩
    [Event.logError "DATABASE_URL environment variable is empty or not set",
     Event.logError "Database test failed: 500: Database connection failed"] rfl

/-- C10: every 200 response of `GET /api/db-test` reports status
`success` and `database_connected: true` — the only `return` of the
handler (lines 113-118) builds exactly that body, and every failure path
exits via a raised 500 `HTTPException` instead. -/
theorem db_test_ok_reports_success (w : World) (f : FaultSpec) (env s : String)
    (db : Database) (now : Nat) (r : DbTestResponse)
    (h : (database_test w f env s db now).1 = .ok r) :
    r.status = "success" ∧ r.database_connected = true := by
  rcases dbTestBody_cases w f env s db now with ⟨e, evs0, hb, _, _⟩ | ⟨evs0, hb, _, _⟩ <;>
    unfold database_test at h <;> rw [hb] at h <;> dsimp only at h
  · simp at h
  · simp only [Except.ok.injEq] at h
    subst h
    exact ⟨rfl, rfl⟩

theorem db_test_ok_reports_success_witness :
    (⟨"success", "development", true, [⟨1, canonicalMessage, 1⟩]⟩ : DbTestResponse).status
      = "success" ∧
    (⟨"success", "development", true,
      [⟨1, canonicalMessage, 1⟩]⟩ : DbTestResponse).database_connected = true :=
  db_test_ok_reports_success wOk noFaults "development" "cfg" ⟨none⟩ 1
    ⟨"success", "development", true, [⟨1, canonicalMessage, 1⟩]⟩ rfl

/-- C1 (failing evaluation): when `get_database_connection` returns no
connection, line 87 raises `HTTPException(500, "Database connection
failed")`, but that raise sits inside the handler's own
`try ... except Exception`, which catches it and re-raises the wrapped
`Database test failed: <str(e)>` shape — so the response detail is NOT
`Database connection failed`, contradicting the claim (here evaluated at
an empty configuration value). -/
theorem connection_failure_detail_wrapped :
    (database_test wOk noFaults "development" "" ⟨none⟩ 0).1 =
      .error ⟨500, "Database test failed: 500: Database connection failed"⟩ ∧
    "Database test failed: 500: Database connection failed" ≠ "Database connection failed" :=
  ⟨rfl, by decide⟩

/-- C2 (failing evaluation): with a connection successfully opened and a
fault injected into the insert step, `conn.close()` (line 111) is never
reached — the exception jumps straight to the `except` clause, which
only logs and re-raises — so the close count on that execution is 0, not
1, and the connection leaks; on the fault-free run the close count is 1. -/
theorem connection_leaks_on_insert_fault :
    (get_database_connection wOk "cfg").1.isSome = true ∧
    (database_test wOk fInsert "development" "cfg" ⟨none⟩ 5).1 =
      .error ⟨500, "Database test failed: injected insert fault"⟩ ∧
    countEv Event.isClose (database_test wOk fInsert "development" "cfg" ⟨none⟩ 5).2.2 = 0 ∧
    countEv Event.isClose (database_test wOk noFaults "development" "cfg" ⟨none⟩ 1).2.2 = 1 :=
  ⟨rfl, rfl, rfl, rfl⟩

/-- C3 (failing evaluation): the `test_data` table's only constraint is
the serial primary key, so the `ON CONFLICT DO NOTHING` clause of the
insert never fires; calling `GET /api/db-test` twice against an
initially empty database inserts the canonical message twice — the
second call's insert is not a no-op and a duplicate row is created. -/
theorem duplicate_insert_on_second_call :
    messageCount dbAfterFirstCall canonicalMessage = 1 ∧
    messageCount dbAfterSecondCall canonicalMessage = 2 ∧
    (database_test wOk noFaults "development" "cfg" dbAfterFirstCall 2).1 =
      .ok ⟨"success", "development", true,
        [⟨2, canonicalMessage, 2⟩, ⟨1, canonicalMessage, 1⟩]⟩ :=
  ⟨rfl, rfl, rfl⟩

end Stage3v3
